import Mathlib

/-!
Shallow embedding of the collision-driven game core of the platformer in
`src/app.py` and `src/player.py`.  The support library (`game.world`,
`game.entity`, `game.util`, `game.block`, `game.mob`) is not part of the
repository; where its behaviour decides a claim it is modelled from the spec
and marked as such in the doc comment.  Machine quantities (velocities,
countdowns, coordinates) are embedded as `Int`.
-/

namespace Mario

/-- `get_collision_direction(a, b)` (from the absent `game.util`) classifies a
contact as Above / Below / Left / Right: the position of the first entity
relative to the second.  The geometry is external; handlers receive the
classification as an input. -/
inductive Dir where
  | A
  | B
  | L
  | R
  deriving DecidableEq, Repr

/-- `MARIO_VEL["vy"]` from `src/app.py`: the vertical velocity given to the
player on a jump.  Jumping moves the player up, so upward velocities are
negative in this codebase. -/
def mario_jump_vy : Int := -200

/-- The vertical velocity `BounceBlock.on_hit` gives the player to bounce the
player up (`src/app.py`, `vy = -300`). -/
def bounce_block_vy : Int := -300

/-- The state of the `Player` of `src/player.py`: name, health and max health
(held by the entity layer), score, velocity, tunnel attachment, and the
invincibility countdown `invincible_time`. -/
structure Player where
  name : String
  health : Int
  max_health : Int
  score : Int
  vx : Int
  vy : Int
  on_tunnel : Bool
  invincible_time : Int
  deriving DecidableEq, Repr

/-- Modelled from the spec: `DynamicEntity.change_health` of the absent
`game.entity` module.  The spec gives an entity a current health and a max
health; the updated health stays within `[0, max_health]`. -/
def clampHealth (h maxh : Int) : Int := max 0 (min h maxh)

/-- `Player.change_health` from `src/player.py`: the change is passed to the
entity-level update unless the player is invincible and the change is negative,
in which case it is suppressed. -/
def Player.change_health (p : Player) (change : Int) : Player :=
  if p.invincible_time > 0 && change < 0 then p
  else { p with health := clampHealth (p.health + change) p.max_health }

/-- `Player.invincible` from `src/player.py`: sets the invincibility countdown
(default argument 1000 ticks). -/
def Player.invincible (p : Player) (time : Int) : Player :=
  { p with invincible_time := time }

/-- `Player.is_invincible` from `src/player.py`. -/
def Player.is_invincible (p : Player) : Bool := p.invincible_time > 0

/-- `Player.step` from `src/player.py`: one simulation tick decrements the
invincibility countdown while it is positive. -/
def Player.step (p : Player) : Player :=
  if p.invincible_time > 0 then { p with invincible_time := p.invincible_time - 1 } else p

/-- `Star.collect` from `src/app.py`: collecting a star makes the player
invincible with the default duration of 1000 ticks. -/
def Star.collect (p : Player) : Player := p.invincible 1000

/-- The state of the `Mushroom` mob of `src/app.py`: its movement tempo, whose
sign is its direction. -/
structure Mushroom where
  tempo : Int
  deriving DecidableEq, Repr

/-- `Mushroom.collide` from `src/app.py`: a Left or Right contact (direction of
the other entity relative to the mushroom) flips the tempo sign. -/
def Mushroom.collide (m : Mushroom) (dir : Dir) : Mushroom :=
  if dir = Dir.R ∨ dir = Dir.L then { m with tempo := -m.tempo } else m

/-- Result of `Mushroom.on_hit`: the updated player and mushroom, and whether
the mushroom called `world.remove_mob` on itself. -/
structure MushroomHit where
  player : Player
  mushroom : Mushroom
  mushroom_removed : Bool
  deriving DecidableEq, Repr

/-- `Mushroom.on_hit` from `src/app.py`.  `dir` is
`get_collision_direction(player, mushroom)`.  If the player is not above, the
mushroom flips on a side contact, damages the player by 1 (suppressed when
invincible) and sets the player's horizontal velocity to -100 when the player's
own `vx` was positive, else to +100.  If the player is above, the player's
vertical velocity is set to 400 and the mushroom removes itself from the
world. -/
def Mushroom.on_hit (m : Mushroom) (dir : Dir) (p : Player) : MushroomHit :=
  let player_vx := p.vx
  let player_vy := p.vy
  if dir ≠ Dir.A then
    let m1 := m.collide dir
    let p1 := p.change_health (-1)
    let p2 := if player_vx > 0 then { p1 with vx := -100, vy := player_vy }
              else { p1 with vx := 100, vy := player_vy }
    ⟨p2, m1, false⟩
  else
    ⟨{ p with vx := player_vx, vy := 400 }, m, true⟩

/-- Result of `MarioApp._handle_player_collide_mob`: `remove_mob_calls` counts
the `World.remove_mob` invocations on the mob during the handler
(`Mushroom.on_hit` may make one, the handler itself makes one more when the
player is invincible); `remove_after_removed` is true when the handler's own
call targets a mob that `on_hit` already removed earlier in the same tick. -/
structure PlayerMobResult where
  player : Player
  mushroom : Mushroom
  remove_mob_calls : Nat
  remove_after_removed : Bool
  physical : Bool
  deriving DecidableEq, Repr

/-- `MarioApp._handle_player_collide_mob` from `src/app.py`, for a mushroom
mob: it runs the mob's `on_hit`, then removes the mob (again) whenever the
player is invincible, and accepts the collision as physical. -/
def handle_player_collide_mob (dir : Dir) (p : Player) (m : Mushroom) : PlayerMobResult :=
  let r := m.on_hit dir p
  let base := if r.mushroom_removed then 1 else 0
  if r.player.is_invincible then
    ⟨r.player, r.mushroom, base + 1, r.mushroom_removed, true⟩
  else
    ⟨r.player, r.mushroom, base, false, true⟩

/-- The state of the `Switch` block of `src/app.py`: the remaining pressed
time (0 means unpressed). -/
structure Switch where
  pressed_time : Int
  deriving DecidableEq, Repr

/-- `Switch.is_pressed` from `src/app.py`. -/
def Switch.is_pressed (s : Switch) : Bool := s.pressed_time > 0

/-- `Switch.set_pressed_time` from `src/app.py` (default argument 1000). -/
def Switch.set_pressed_time (s : Switch) (time : Int) : Switch :=
  { s with pressed_time := time }

/-- `Switch.on_hit` from `src/app.py`: on an Above contact, press the switch
with the default duration unless it is already pressed. -/
def Switch.on_hit (s : Switch) (dir : Dir) : Switch :=
  if dir = Dir.A then (if s.is_pressed then s else s.set_pressed_time 1000) else s

/-- `Switch.step` from `src/app.py`: one tick decrements the pressed countdown
while the switch is pressed. -/
def Switch.step (s : Switch) : Switch :=
  if s.is_pressed then { s with pressed_time := s.pressed_time - 1 } else s

/-- `Switch._invisible_radius` from `src/app.py`. -/
def invisible_radius : Int := 64

/-- A block of the world: its kind identifier, its stored position, and its
behavioral state (the pressed countdown when the kind is a switch, 0 for the
stateless kinds such as bricks). -/
structure Block where
  kind : String
  px : Int
  py : Int
  bstate : Int
  deriving DecidableEq, Repr

/-- Modelled from the spec: `World.get_things_in_range` of the absent
`game.world` module returns all entities whose bounding shape intersects a
query circle; here a block is in range when its stored position lies within
the query radius. -/
def inRange (cx cy r : Int) (b : Block) : Bool :=
  (b.px - cx) ^ 2 + (b.py - cy) ^ 2 ≤ r ^ 2

/-- The part of the app state the switch area-effect and the invisible-block
scheduler touch: the world's active blocks, the `invisible_list` of
`[block, remaining-ticks]` entries, and the switch with its position. -/
structure SwitchWorld where
  blocks : List Block
  invisible : List (Block × Int)
  switch : Switch
  swx : Int
  swy : Int
  deriving DecidableEq, Repr

/-- Whether a thing returned by the range query is a brick block, the filter of
the loop in `MarioApp._handle_player_collide_block`. -/
def isBrickInRange (cx cy : Int) (b : Block) : Bool :=
  b.kind == "brick" && inRange cx cy invisible_radius b

/-- The `switch` branch of `MarioApp._handle_player_collide_block` from
`src/app.py`: the switch's `on_hit` presses it on an Above contact when
unpressed; if the switch is now pressed, every brick block in range of the
switch is removed from the world and appended to `invisible_list` with a
1000-tick timer, and the collision is non-physical; otherwise it is
physical. -/
def handle_player_collide_switch (dir : Dir) (w : SwitchWorld) : SwitchWorld × Bool :=
  let s := w.switch.on_hit dir
  if s.is_pressed then
    ({ w with
        blocks := w.blocks.filter (fun b => !(isBrickInRange w.swx w.swy b)),
        invisible := w.invisible ++ (w.blocks.filter (isBrickInRange w.swx w.swy)).map
          (fun b => (b, 1000)),
        switch := s }, false)
  else
    ({ w with switch := s }, true)

/-- The loop of `MarioApp.invisble_step` from `src/app.py`, with Python's
iterator semantics made explicit: the `for` loop walks the live list by index;
each entry's timer is decremented in place, and an expired entry is restored
(its block re-added to the world) and removed from the list, which shifts the
later entries one slot left under the still-advancing index.  Returns the
restored blocks in restoration order together with the remaining list. -/
def invisAux : Nat → Nat → List (Block × Int) → List Block →
    List Block × List (Block × Int)
  | 0, _, lst, restored => (restored, lst)
  | fuel + 1, i, lst, restored =>
    if h : i < lst.length then
      if (lst.get ⟨i, h⟩).2 - 1 ≤ 0 then
        invisAux fuel (i + 1) (lst.eraseIdx i) (restored ++ [(lst.get ⟨i, h⟩).1])
      else
        invisAux fuel (i + 1) (lst.set i ((lst.get ⟨i, h⟩).1, (lst.get ⟨i, h⟩).2 - 1)) restored
    else (restored, lst)

/-- `MarioApp.invisble_step` from `src/app.py`: each restored block is re-added
to the world at its own stored position.  The fuel `length` bounds the loop:
the index rises by one per iteration and the list never grows, so that many
iterations always reach the end of the list. -/
def invisble_step (w : SwitchWorld) : SwitchWorld :=
  let r := invisAux w.invisible.length 0 w.invisible []
  { w with blocks := w.blocks ++ r.1, invisible := r.2 }

/-- One unpaused simulation tick of `MarioApp.step` as it acts on this state
when no collision occurs: `world.step` runs the switch's `step` hook, then
`invisble_step` updates the invisible-block record. -/
def world_tick (w : SwitchWorld) : SwitchWorld :=
  invisble_step { w with switch := w.switch.step }

/-- Whitespace as stripped by Python's `str.strip` (the characters occurring in
configuration text). -/
def isSpaceChar (c : Char) : Bool :=
  c = ' ' || c = '\t' || c = '\n' || c = '\r'

/-- Python's `str.strip`: drop whitespace from both ends.  Lines of the
configuration text are embedded as `List Char`. -/
def pyStrip (l : List Char) : List Char :=
  ((l.dropWhile isSpaceChar).reverse.dropWhile isSpaceChar).reverse

/-- `MarioApp.find_in_line_and_config` from `src/app.py`, minus the mutation:
`index = line.find(":")`; when the text before the first colon strips to the
key, the result is the stripped text after the colon.  When the line has no
colon, `find` returns -1, so Python's `line[0:index]` is the line without its
last character and `line[index+1:]` is the whole line. -/
def find_in_line (key : List Char) (line : List Char) : Option (List Char) :=
  match List.findIdx? (fun x => x = ':') line with
  | some i => if pyStrip (line.take i) == key then some (pyStrip (line.drop (i + 1))) else none
  | none => if pyStrip line.dropLast == key then some (pyStrip line) else none

/-- Modelled from the spec: Python's `int(...)` applied to a stripped token —
an optional sign followed by at least one decimal digit; anything else fails
to parse. -/
def digitsToNat (l : List Char) : Option Nat :=
  match l with
  | [] => none
  | _ => l.foldl (fun acc c =>
      match acc with
      | some n => if c.isDigit then some (n * 10 + (c.toNat - 48)) else none
      | none => none) (some 0)

/-- Integer parsing for the `int`-typed configuration values. -/
def pyInt (l : List Char) : Option Int :=
  match l with
  | '-' :: rest => (digitsToNat rest).map (fun n => -(n : Int))
  | '+' :: rest => (digitsToNat rest).map (fun n => (n : Int))
  | _ => (digitsToNat l).map (fun n => (n : Int))

/-- The `self.configuration` dictionary of `MarioApp.load_config`, one field
per key the loader looks for. -/
structure Config where
  gravity : Option Int
  start : Option (List Char)
  character : Option (List Char)
  x : Option Int
  y : Option Int
  mass : Option Int
  health : Option Int
  max_velocity : Option Int
  deriving DecidableEq, Repr

/-- The fatal configuration errors of `MarioApp.configuration_error`; each one
is reported with a message box and followed by `exit(0)`. -/
inductive ConfigError where
  | missing
  | invalid
  | cannotBeParsed
  deriving DecidableEq, Repr

/-- An empty configuration dictionary. -/
def emptyConfig : Config := ⟨none, none, none, none, none, none, none, none⟩

/-- One `find_in_line_and_config` call with `val_type = int`: a match whose
value fails `int(...)` reports the cannot-be-parsed error (and exits). -/
def configLineIntKey (key : List Char) (upd : Config → Int → Config) (line : List Char)
    (c : Config) : Except ConfigError Config :=
  match find_in_line key line with
  | some v =>
    match pyInt v with
    | some n => .ok (upd c n)
    | none => .error .cannotBeParsed
  | none => .ok c

/-- One `find_in_line_and_config` call with `val_type = str`, which never fails
to convert. -/
def configLineStrKey (key : List Char) (upd : Config → List Char → Config) (line : List Char)
    (c : Config) : Except ConfigError Config :=
  match find_in_line key line with
  | some v => .ok (upd c v)
  | none => .ok c

/-- The per-line body of the loop in `MarioApp.load_config`: the eight keys are
tried in the source's order. -/
def load_config_line (c : Config) (line : List Char) : Except ConfigError Config := do
  let c ← configLineIntKey "gravity".data (fun c n => { c with gravity := some n }) line c
  let c ← configLineStrKey "start".data (fun c v => { c with start := some v }) line c
  let c ← configLineStrKey "character".data (fun c v => { c with character := some v }) line c
  let c ← configLineIntKey "x".data (fun c n => { c with x := some n }) line c
  let c ← configLineIntKey "y".data (fun c n => { c with y := some n }) line c
  let c ← configLineIntKey "mass".data (fun c n => { c with mass := some n }) line c
  let c ← configLineIntKey "health".data (fun c n => { c with health := some n }) line c
  let c ← configLineIntKey "max_velocity".data (fun c n => { c with max_velocity := some n }) line c
  pure c

/-- `MarioApp.check_config` from `src/app.py`: the keys it is called with are
gravity, start, x, y, mass, health and max_velocity (start twice); the first
missing one reports the invalid-configuration error and exits. -/
def check_config (c : Config) : Except ConfigError Config :=
  if c.gravity.isSome && c.start.isSome && c.x.isSome && c.y.isSome &&
      c.mass.isSome && c.health.isSome && c.max_velocity.isSome
  then .ok c else .error .invalid

/-- `MarioApp.load_config` from `src/app.py` on already-read configuration
text: scan every line for the eight keys, then check the required ones. -/
def load_config (content : List (List Char)) : Except ConfigError Config := do
  let c ← content.foldlM load_config_line emptyConfig
  check_config c

/-- The player-character name the app uses (`MarioApp.__init__`): the
`character` key when configured, else the default `Mario`. -/
def app_character (c : Config) : List Char :=
  match c.character with
  | some v => v
  | none => "Mario".data

/-- What `Goal.triger` asks the host to do. -/
inductive GoalAction where
  | loadLevel (name : List Char) (resetplayer : Bool)
  | configErrorExit
  deriving DecidableEq, Repr

/-- Result of `Goal.triger`: whether a high-score prompt was requested
(`app.write_highscore`), and the requested action. -/
structure TrigerResult where
  highscore_prompt : Bool
  action : GoalAction
  deriving DecidableEq, Repr

/-- The marker line text `'==' + app._level + '=='` scanned for by
`Goal.triger`. -/
def marker (level : List Char) : List Char :=
  '=' :: '=' :: (level ++ ['=', '='])

/-- Substring containment, Python's `line.find(sub) != -1`. -/
def hasSub (pat : List Char) (l : List Char) : Bool :=
  match l with
  | [] => pat == []
  | _ :: rest => (l.take pat.length == pat) || hasSub pat rest

/-- The `now_level_line` loop of `Goal.triger`: the index of the first line
containing the active level's section delimiter as a substring, or the number
of lines when no line contains it. -/
def markerIdx (content : List (List Char)) (level : List Char) : Nat :=
  match content.findIdx? (fun line => hasSub (marker level) line) with
  | some i => i
  | none => content.length

/-- The forward scan of `Goal.triger`: the value of the first line (at or after
the marker line) that `find_in_line_and_config` accepts for the trigger key. -/
def triger_scan (key : List Char) (lines : List (List Char)) : Option (List Char) :=
  lines.findSome? (find_in_line key)

/-- `Goal.triger` from `src/app.py`: scan the configuration text from the
active level's section delimiter for the trigger key; on a hit, request the
high-score prompt and a load of the level named by the value without resetting
the player; on a miss, request the high-score prompt, report a configuration
error and request exit. -/
def Goal.triger (content : List (List Char)) (level : List Char) (key : List Char) :
    TrigerResult :=
  match triger_scan key (content.drop (markerIdx content level)) with
  | some v => ⟨true, .loadLevel v false⟩
  | none => ⟨true, .configErrorExit⟩

/-- Spec-side reading of claim C5: after a side hit, the player's horizontal
velocity points away from the mushroom — leftward (negative) when the player is
on the mushroom's left, rightward (positive) when the player is on its
right. -/
def awayFromMushroom (dir : Dir) (vx : Int) : Prop :=
  (dir = Dir.L → vx < 0) ∧ (dir = Dir.R → 0 < vx)

/-- Spec-side reading of claim C8: a trigger declaration is a line containing a
colon whose text before the first colon strips to the trigger key. -/
def isColonDecl (key : List Char) (line : List Char) : Bool :=
  match List.findIdx? (fun x => x = ':') line with
  | some i => pyStrip (line.take i) == key
  | none => false

/-- A mushroom as constructed by `Mushroom.__init__` (tempo 100). -/
def mushroomStd : Mushroom := ⟨100⟩

/-- A full-health player moving right, not invincible. -/
def playerMovingRight : Player := ⟨"Mario", 5, 5, 0, 50, 100, false, 0⟩

/-- A full-health player standing still, not invincible. -/
def playerStill : Player := ⟨"Mario", 5, 5, 0, 0, 0, false, 0⟩

/-- A full-health player who just collected a star (invincibility 1000). -/
def playerStarred : Player := ⟨"Mario", 5, 5, 0, 0, 0, false, 1000⟩

/-- Bricks at distances 16, 32 and 48 of the origin — inside the radius-64
query circle of a switch at the origin. -/
def brickA : Block := ⟨"brick", 16, 0, 0⟩

/-- Second in-range brick. -/
def brickB : Block := ⟨"brick", 32, 0, 0⟩

/-- Third in-range brick. -/
def brickC : Block := ⟨"brick", 0, 48, 0⟩

/-- A brick at distance 160 — outside the radius-64 query circle. -/
def brickFar : Block := ⟨"brick", 160, 0, 0⟩

/-- The pre-trigger world of spec Scenario 5: an unpressed switch at the
origin, three bricks in range and one outside. -/
def w0 : SwitchWorld := ⟨[brickA, brickB, brickC, brickFar], [], ⟨0⟩, 0, 0⟩

/-- The world right after the player steps on the switch from above. -/
def w1 : SwitchWorld := (handle_player_collide_switch Dir.A w0).1

/-- A configuration text carrying all seven required keys but no `character`
key. -/
def configNoCharacter : List (List Char) :=
  ["gravity: 300\n".data, "start: level1.txt\n".data, "x: 30\n".data, "y: 30\n".data,
    "mass: 100\n".data, "health: 5\n".data, "max_velocity: 500\n".data]

/-- The configuration `load_config` builds from `configNoCharacter`. -/
def configNoCharacterParsed : Config :=
  ⟨some 300, some "level1.txt".data, none, some 30, some 30, some 100, some 5, some 500⟩

/-- A configuration text whose level section carries a proper
`goal: level2.txt` declaration. -/
def goalContent : List (List Char) :=
  ["gravity: 300\n".data, "==level1.txt==\n".data, "goal: level2.txt\n".data]

/-- A configuration text whose level section carries no colon declaration at
all, only a bare `goal` line. -/
def goalContentBare : List (List Char) :=
  ["==level1.txt==\n".data, "goal\n".data]

/-- A world whose invisible record holds one brick about to expire. -/
def w7 : SwitchWorld := ⟨[], [(brickA, 1)], ⟨0⟩, 0, 0⟩

theorem player_step_le (p : Player) : (Player.step p).invincible_time ≤ p.invincible_time := by
  unfold Player.step
  split
  · show p.invincible_time - 1 ≤ p.invincible_time
    omega
  · exact le_refl _

theorem player_step_drop (p : Player) :
    p.invincible_time - (Player.step p).invincible_time ≤ 1 := by
  unfold Player.step
  split
  · show p.invincible_time - (p.invincible_time - 1) ≤ 1
    omega
  · show p.invincible_time - p.invincible_time ≤ 1
    omega

theorem player_step_nonneg (p : Player) (h : 0 ≤ p.invincible_time) :
    0 ≤ (Player.step p).invincible_time := by
  unfold Player.step
  split
  · rename_i hpos
    show 0 ≤ p.invincible_time - 1
    omega
  · exact h

theorem player_iter_nonneg (n : Nat) (p : Player) (h : 0 ≤ p.invincible_time) :
    0 ≤ ((Player.step)^[n] p).invincible_time := by
  induction n generalizing p with
  | zero => simpa using h
  | succ k ih =>
    rw [Function.iterate_succ_apply]
    exact ih _ (player_step_nonneg p h)

theorem switch_step_le (s : Switch) : (Switch.step s).pressed_time ≤ s.pressed_time := by
  unfold Switch.step
  split
  · show s.pressed_time - 1 ≤ s.pressed_time
    omega
  · exact le_refl _

theorem switch_step_drop (s : Switch) :
    s.pressed_time - (Switch.step s).pressed_time ≤ 1 := by
  unfold Switch.step
  split
  · show s.pressed_time - (s.pressed_time - 1) ≤ 1
    omega
  · show s.pressed_time - s.pressed_time ≤ 1
    omega

theorem switch_step_nonneg (s : Switch) (h : 0 ≤ s.pressed_time) :
    0 ≤ (Switch.step s).pressed_time := by
  unfold Switch.step Switch.is_pressed
  split
  · rename_i hpos
    show 0 ≤ s.pressed_time - 1
    simp only [decide_eq_true_eq] at hpos
    omega
  · exact h

theorem switch_iter_nonneg (n : Nat) (s : Switch) (h : 0 ≤ s.pressed_time) :
    0 ≤ ((Switch.step)^[n] s).pressed_time := by
  induction n generalizing s with
  | zero => simpa using h
  | succ k ih =>
    rw [Function.iterate_succ_apply]
    exact ih _ (switch_step_nonneg s h)

/-- C3: over every sequence of simulation ticks, the player's invincibility
countdown and a switch's pressed countdown are non-increasing, drop by at most
one per tick, and never become negative. -/
theorem C3_countdowns_monotone_nonneg (p : Player) (s : Switch) (n : Nat)
    (hp : 0 ≤ p.invincible_time) (hs : 0 ≤ s.pressed_time) :
    ((Player.step)^[n + 1] p).invincible_time ≤ ((Player.step)^[n] p).invincible_time ∧
    ((Player.step)^[n] p).invincible_time - ((Player.step)^[n + 1] p).invincible_time ≤ 1 ∧
    0 ≤ ((Player.step)^[n] p).invincible_time ∧
    ((Switch.step)^[n + 1] s).pressed_time ≤ ((Switch.step)^[n] s).pressed_time ∧
    ((Switch.step)^[n] s).pressed_time - ((Switch.step)^[n + 1] s).pressed_time ≤ 1 ∧
    0 ≤ ((Switch.step)^[n] s).pressed_time := by
  rw [Function.iterate_succ_apply', Function.iterate_succ_apply']
  exact ⟨player_step_le _, player_step_drop _, player_iter_nonneg n p hp,
    switch_step_le _, switch_step_drop _, switch_iter_nonneg n s hs⟩

/-- Witness for C3 at the starred player, a freshly pressed switch and tick 3. -/
theorem C3_countdowns_monotone_nonneg_witness :
    (0 ≤ playerStarred.invincible_time) ∧ (0 ≤ (Switch.mk 1000).pressed_time) ∧
    (((Player.step)^[3 + 1] playerStarred).invincible_time ≤
        ((Player.step)^[3] playerStarred).invincible_time ∧
      ((Player.step)^[3] playerStarred).invincible_time -
        ((Player.step)^[3 + 1] playerStarred).invincible_time ≤ 1 ∧
      0 ≤ ((Player.step)^[3] playerStarred).invincible_time ∧
      ((Switch.step)^[3 + 1] (Switch.mk 1000)).pressed_time ≤
        ((Switch.step)^[3] (Switch.mk 1000)).pressed_time ∧
      ((Switch.step)^[3] (Switch.mk 1000)).pressed_time -
        ((Switch.step)^[3 + 1] (Switch.mk 1000)).pressed_time ≤ 1 ∧
      0 ≤ ((Switch.step)^[3] (Switch.mk 1000)).pressed_time) :=
  ⟨by decide, by decide,
    C3_countdowns_monotone_nonneg playerStarred (Switch.mk 1000) 3 (by decide) (by decide)⟩

theorem player_iter_time (n : Nat) (p : Player) (h : (n : Int) ≤ p.invincible_time) :
    ((Player.step)^[n] p).invincible_time = p.invincible_time - n := by
  induction n generalizing p with
  | zero => simp
  | succ k ih =>
    have hpos : p.invincible_time > 0 := by
      push_cast at h
      omega
    have hstep : (Player.step p).invincible_time = p.invincible_time - 1 := by
      unfold Player.step
      rw [if_pos hpos]
    rw [Function.iterate_succ_apply, ih (Player.step p) (by rw [hstep]; push_cast at h ⊢; omega),
      hstep]
    push_cast
    ring

theorem change_health_suppressed (p : Player) (c : Int) (hq : 0 < p.invincible_time)
    (hc : c < 0) : p.change_health c = p := by
  unfold Player.change_health
  rw [if_pos]
  simp only [Bool.and_eq_true, decide_eq_true_eq]
  exact ⟨hq, hc⟩

theorem on_hit_side_player_health (m : Mushroom) (dir : Dir) (p : Player) (hd : dir ≠ Dir.A) :
    (m.on_hit dir p).player.health = (p.change_health (-1)).health := by
  unfold Mushroom.on_hit
  rw [if_pos hd]
  by_cases hv : p.vx > 0 <;> simp [hv]

/-- C10: collecting a star sets the invincibility countdown to exactly 1000;
for fewer than 1000 following ticks the countdown stays positive; and while
any player's countdown is positive, a mushroom side collision leaves the
player's health unchanged. -/
theorem C10_star_then_side_hit (p q : Player) (m : Mushroom) (dir : Dir) (n : Nat)
    (hd : dir ≠ Dir.A) (hq : 0 < q.invincible_time) (hn : n < 1000) :
    (Star.collect p).invincible_time = 1000 ∧
    0 < ((Player.step)^[n] (Star.collect p)).invincible_time ∧
    (m.on_hit dir q).player.health = q.health := by
  refine ⟨rfl, ?_, ?_⟩
  · rw [player_iter_time n (Star.collect p)
      (by show (n : Int) ≤ 1000; omega)]
    show (0 : Int) < 1000 - n
    omega
  · rw [on_hit_side_player_health m dir q hd, change_health_suppressed q (-1) hq (by omega)]

/-- Witness for C10 at a fresh player, the starred player, a left-side hit and
tick 5. -/
theorem C10_star_then_side_hit_witness :
    (Dir.L ≠ Dir.A) ∧ (0 < playerStarred.invincible_time) ∧ ((5 : Nat) < 1000) ∧
    ((Star.collect playerStill).invincible_time = 1000 ∧
      0 < ((Player.step)^[5] (Star.collect playerStill)).invincible_time ∧
      (mushroomStd.on_hit Dir.L playerStarred).player.health = playerStarred.health) :=
  ⟨by decide, by decide, by decide,
    C10_star_then_side_hit playerStill playerStarred mushroomStd Dir.L 5 (by decide) (by decide)
      (by decide)⟩

/-- C1: landing on a mushroom from above removes the mushroom and leaves the
player's health unchanged, but the vertical velocity the code assigns is +400 —
a downward velocity in this codebase, where upward motion is negative (the
jump velocity is -200 and the bounce-block launch is -300), not the upward
launch the spec describes. -/
theorem C1_land_on_mushroom_downward :
    (mushroomStd.on_hit Dir.A playerMovingRight).mushroom_removed = true ∧
    (mushroomStd.on_hit Dir.A playerMovingRight).player.health = playerMovingRight.health ∧
    (mushroomStd.on_hit Dir.A playerMovingRight).player.vy = 400 ∧
    mario_jump_vy < 0 ∧ bounce_block_vy < 0 ∧
    0 < (mushroomStd.on_hit Dir.A playerMovingRight).player.vy := by
  decide

theorem on_hit_side_not_removed (m : Mushroom) (dir : Dir) (p : Player) (hd : dir ≠ Dir.A) :
    (m.on_hit dir p).mushroom_removed = false := by
  unfold Mushroom.on_hit
  rw [if_pos hd]

theorem on_hit_side_player_vx (m : Mushroom) (dir : Dir) (p : Player) (hd : dir ≠ Dir.A) :
    (m.on_hit dir p).player.vx = (if p.vx > 0 then (-100 : Int) else 100) := by
  unfold Mushroom.on_hit
  rw [if_pos hd]
  by_cases hv : p.vx > 0 <;> simp [hv]

theorem on_hit_side_invincible_time (m : Mushroom) (dir : Dir) (p : Player) (hd : dir ≠ Dir.A) :
    (m.on_hit dir p).player.invincible_time = p.invincible_time := by
  unfold Mushroom.on_hit
  rw [if_pos hd]
  unfold Player.change_health
  by_cases hv : p.vx > 0 <;> split <;> simp [hv]

theorem change_health_active (p : Player) (c : Int) (hi : p.is_invincible = false) :
    (p.change_health c).health = clampHealth (p.health + c) p.max_health := by
  unfold Player.is_invincible at hi
  unfold Player.change_health
  simp [hi]

/-- C5 as stated is false at a concrete input: a standing-still, non-invincible
player hit while on the mushroom's Left side is given horizontal velocity +100,
toward the mushroom, not away from the mushroom's approach direction. -/
theorem C5_side_hit_counterexample :
    playerStill.is_invincible = false ∧ playerStill.vx = 0 ∧
    (mushroomStd.on_hit Dir.L playerStill).player.vx = 100 ∧
    ¬ awayFromMushroom Dir.L ((mushroomStd.on_hit Dir.L playerStill).player.vx) :=
  ⟨by decide, by decide, by decide, fun h => absurd (h.1 rfl) (by decide)⟩

/-- C5 (amended): a mushroom side hit on a live, non-invincible player costs
exactly one health point and does not remove the mushroom, and the player's
horizontal velocity is set to -100 when the player's own horizontal velocity
was positive and to +100 otherwise — a reversal of the player's motion,
independent of the mushroom's approach side. -/
theorem C5_side_hit_amended (p : Player) (m : Mushroom) (dir : Dir)
    (hd : dir = Dir.L ∨ dir = Dir.R) (hi : p.is_invincible = false)
    (hh : 0 < p.health) (hmx : p.health ≤ p.max_health) :
    (handle_player_collide_mob dir p m).player.health = p.health - 1 ∧
    (handle_player_collide_mob dir p m).player.vx = (if p.vx > 0 then (-100 : Int) else 100) ∧
    (handle_player_collide_mob dir p m).remove_mob_calls = 0 := by
  have hdA : dir ≠ Dir.A := by
    rcases hd with h | h <;> subst h <;> decide
  have hinv : (m.on_hit dir p).player.is_invincible = false := by
    unfold Player.is_invincible
    rw [on_hit_side_invincible_time m dir p hdA]
    unfold Player.is_invincible at hi
    exact hi
  have hhandler : handle_player_collide_mob dir p m =
      ⟨(m.on_hit dir p).player, (m.on_hit dir p).mushroom,
        (if (m.on_hit dir p).mushroom_removed then 1 else 0), false, true⟩ := by
    unfold handle_player_collide_mob
    rw [if_neg]
    simp [hinv]
  rw [hhandler]
  refine ⟨?_, on_hit_side_player_vx m dir p hdA, ?_⟩
  · rw [on_hit_side_player_health m dir p hdA, change_health_active p (-1) hi]
    unfold clampHealth
    omega
  · rw [on_hit_side_not_removed m dir p hdA]
    rfl

/-- Witness for the amended C5 at the rightward-moving full-health player. -/
theorem C5_side_hit_amended_witness :
    (Dir.L = Dir.L ∨ Dir.L = Dir.R) ∧ playerMovingRight.is_invincible = false ∧
    0 < playerMovingRight.health ∧ playerMovingRight.health ≤ playerMovingRight.max_health ∧
    ((handle_player_collide_mob Dir.L playerMovingRight mushroomStd).player.health =
        playerMovingRight.health - 1 ∧
      (handle_player_collide_mob Dir.L playerMovingRight mushroomStd).player.vx =
        (if playerMovingRight.vx > 0 then (-100 : Int) else 100) ∧
      (handle_player_collide_mob Dir.L playerMovingRight mushroomStd).remove_mob_calls = 0) :=
  ⟨Or.inl rfl, by decide, by decide, by decide,
    C5_side_hit_amended playerMovingRight mushroomStd Dir.L (Or.inl rfl) (by decide) (by decide)
      (by decide)⟩

/-- C6: the claimed guard does not exist — when an invincible player lands on a
mushroom from above, `Mushroom.on_hit` removes the mushroom and the player-mob
handler then invokes `remove_mob` a second time on the already-removed
mushroom. -/
theorem C6_double_removal_same_tick :
    (mushroomStd.on_hit Dir.A playerStarred).mushroom_removed = true ∧
    (handle_player_collide_mob Dir.A playerStarred mushroomStd).remove_mob_calls = 2 ∧
    (handle_player_collide_mob Dir.A playerStarred mushroomStd).remove_after_removed = true := by
  decide

/-- C4: a further player press of an already-pressed switch — in the state
left by a first press, where every in-range brick is out of the world —
changes neither the pressed countdown nor the world's blocks nor the
invisible record. -/
theorem C4_pressed_switch_idempotent (dir : Dir) (w : SwitchWorld)
    (hp : w.switch.is_pressed = true)
    (hb : ∀ b ∈ w.blocks, isBrickInRange w.swx w.swy b = false) :
    ((handle_player_collide_switch dir w).1).switch.pressed_time = w.switch.pressed_time ∧
    ((handle_player_collide_switch dir w).1).blocks = w.blocks ∧
    ((handle_player_collide_switch dir w).1).invisible = w.invisible := by
  have hon : w.switch.on_hit dir = w.switch := by
    unfold Switch.on_hit
    by_cases hdA : dir = Dir.A
    · rw [if_pos hdA, if_pos hp]
    · rw [if_neg hdA]
  have hfilter1 : w.blocks.filter (fun b => !(isBrickInRange w.swx w.swy b)) = w.blocks := by
    rw [List.filter_eq_self]
    intro a ha
    simp [hb a ha]
  have hfilter2 : w.blocks.filter (isBrickInRange w.swx w.swy) = [] := by
    rw [List.filter_eq_nil_iff]
    intro a ha
    simp [hb a ha]
  unfold handle_player_collide_switch
  rw [hon, if_pos hp]
  refine ⟨rfl, ?_, ?_⟩
  · exact hfilter1
  · show w.invisible ++ (w.blocks.filter (isBrickInRange w.swx w.swy)).map (fun b => (b, 1000)) =
      w.invisible
    rw [hfilter2]
    simp

/-- Witness for C4 at the just-pressed scenario world `w1`. -/
theorem C4_pressed_switch_idempotent_witness :
    w1.switch.is_pressed = true ∧
    (∀ b ∈ w1.blocks, isBrickInRange w1.swx w1.swy b = false) ∧
    (((handle_player_collide_switch Dir.A w1).1).switch.pressed_time =
        w1.switch.pressed_time ∧
      ((handle_player_collide_switch Dir.A w1).1).blocks = w1.blocks ∧
      ((handle_player_collide_switch Dir.A w1).1).invisible = w1.invisible) :=
  ⟨by decide, by decide, C4_pressed_switch_idempotent Dir.A w1 (by decide) (by decide)⟩

theorem invisAux_restored_mem (fuel : Nat) : ∀ (i : Nat) (lst : List (Block × Int))
    (acc : List Block) (b : Block), b ∈ (invisAux fuel i lst acc).1 →
    b ∈ acc ∨ ∃ t : Int, (b, t) ∈ lst := by
  induction fuel with
  | zero =>
    intro i lst acc b hb
    exact Or.inl hb
  | succ k ih =>
    intro i lst acc b hb
    rw [invisAux] at hb
    split at hb
    · rename_i h
      split at hb
      · rcases ih (i + 1) (lst.eraseIdx i) (acc ++ [(lst.get ⟨i, h⟩).1]) b hb with h1 | ⟨t, ht⟩
        · rcases List.mem_append.mp h1 with h2 | h2
          · exact Or.inl h2
          · have hbe : b = (lst.get ⟨i, h⟩).1 := by simpa using h2
            refine Or.inr ⟨(lst.get ⟨i, h⟩).2, ?_⟩
            rw [hbe]
            exact List.get_mem lst i h
        · exact Or.inr ⟨t, (List.eraseIdx_sublist lst i).subset ht⟩
      · rcases ih (i + 1) (lst.set i ((lst.get ⟨i, h⟩).1, (lst.get ⟨i, h⟩).2 - 1)) acc b hb with
          h1 | ⟨t, ht⟩
        · exact Or.inl h1
        · rcases List.mem_or_eq_of_mem_set ht with h2 | h2
          · exact Or.inr ⟨t, h2⟩
          · have hbe : b = (lst.get ⟨i, h⟩).1 := congrArg Prod.fst h2
            refine Or.inr ⟨(lst.get ⟨i, h⟩).2, ?_⟩
            rw [hbe]
            exact List.get_mem lst i h
    · exact Or.inl hb

/-- C7: every block the invisible-block scheduler hands back to the world is
exactly a block that was in the record — the very same value, so the same
kind, stored position and behavioral state — re-added at its own stored
position. -/
theorem C7_reinserted_block_identical (w : SwitchWorld) (b : Block)
    (hb : b ∈ (invisble_step w).blocks) :
    b ∈ w.blocks ∨ ∃ t : Int, (b, t) ∈ w.invisible := by
  have hb' : b ∈ w.blocks ++ (invisAux w.invisible.length 0 w.invisible []).1 := hb
  rcases List.mem_append.mp hb' with h | h
  · exact Or.inl h
  · exact Or.inr
      ((invisAux_restored_mem _ _ _ _ b h).resolve_left (List.not_mem_nil b))

/-- Witness for C7 at a record holding one expiring brick. -/
theorem C7_reinserted_block_identical_witness :
    brickA ∈ (invisble_step w7).blocks ∧
    (brickA ∈ w7.blocks ∨ ∃ t : Int, (brickA, t) ∈ w7.invisible) :=
  ⟨by decide, C7_reinserted_block_identical w7 brickA (by decide)⟩

theorem c2_tick_no_expire (t : Int) (sw : Switch) (ht : 2 ≤ t) :
    world_tick ⟨[brickFar], [(brickA, t), (brickB, t), (brickC, t)], sw, 0, 0⟩ =
      ⟨[brickFar], [(brickA, t - 1), (brickB, t - 1), (brickC, t - 1)], sw.step, 0, 0⟩ := by
  have h1 : ¬(t - 1 ≤ 0) := by omega
  unfold world_tick invisble_step
  simp [invisAux, h1, List.set]

theorem c2_tick_expire (sw : Switch) :
    world_tick ⟨[brickFar], [(brickA, 1), (brickB, 1), (brickC, 1)], sw, 0, 0⟩ =
      ⟨[brickFar, brickA, brickC], [(brickB, 1)], sw.step, 0, 0⟩ := by
  unfold world_tick invisble_step
  simp [invisAux, List.eraseIdx]

theorem c2_tick_last (sw : Switch) :
    world_tick ⟨[brickFar, brickA, brickC], [(brickB, 1)], sw, 0, 0⟩ =
      ⟨[brickFar, brickA, brickC, brickB], [], sw.step, 0, 0⟩ := by
  unfold world_tick invisble_step
  simp [invisAux, List.eraseIdx]

theorem c2_iterate (k : Nat) (hk : k ≤ 999) :
    (world_tick)^[k] w1 =
      ⟨[brickFar],
        [(brickA, 1000 - (k : Int)), (brickB, 1000 - (k : Int)), (brickC, 1000 - (k : Int))],
        (Switch.step)^[k] (Switch.mk 1000), 0, 0⟩ := by
  induction k with
  | zero =>
    simp only [Function.iterate_zero_apply, Nat.cast_zero, sub_zero]
    decide
  | succ n ih =>
    have hn : n ≤ 999 := Nat.le_of_succ_le hk
    have ht : (2 : Int) ≤ 1000 - (n : Int) := by omega
    rw [Function.iterate_succ_apply', ih hn, c2_tick_no_expire (1000 - (n : Int)) _ ht,
      Function.iterate_succ_apply']
    have harith : (1000 : Int) - (n : Int) - 1 = 1000 - ((n + 1 : Nat) : Int) := by
      push_cast
      ring
    rw [harith]

/-- C2: stepping on the switch moves exactly the three in-range bricks into the
invisible record with countdown 1000 each and removes them from the world, but
after 1000 unpaused ticks only two of the three are back — removing an expired
entry while iterating over `invisible_list` makes the loop skip the entry after
it — so the world's block set regains its pre-trigger size only after
1001 ticks. -/
theorem C2_switch_scenario_off_by_one :
    w1.invisible = [(brickA, 1000), (brickB, 1000), (brickC, 1000)] ∧
    w1.blocks = [brickFar] ∧
    w0.blocks.length = 4 ∧
    ((world_tick)^[1000] w1).blocks.length = 3 ∧
    ((world_tick)^[1000] w1).invisible = [(brickB, 1)] ∧
    ((world_tick)^[1001] w1).blocks.length = 4 ∧
    ((world_tick)^[1001] w1).invisible = [] := by
  have h999 := c2_iterate 999 (by omega)
  have h1000 : (world_tick)^[1000] w1 =
      ⟨[brickFar, brickA, brickC], [(brickB, 1)],
        Switch.step ((Switch.step)^[999] (Switch.mk 1000)), 0, 0⟩ := by
    rw [show (1000 : Nat) = 999 + 1 from rfl, Function.iterate_succ_apply', h999]
    have hone : (1000 : Int) - ((999 : Nat) : Int) = 1 := by norm_num
    rw [hone, c2_tick_expire]
  have h1001 : (world_tick)^[1001] w1 =
      ⟨[brickFar, brickA, brickC, brickB], [],
        Switch.step (Switch.step ((Switch.step)^[999] (Switch.mk 1000))), 0, 0⟩ := by
    rw [show (1001 : Nat) = 1000 + 1 from rfl, Function.iterate_succ_apply', h1000, c2_tick_last]
  refine ⟨by decide, by decide, by decide, ?_, ?_, ?_, ?_⟩
  · rw [h1000]
    rfl
  · rw [h1000]
  · rw [h1001]
    rfl
  · rw [h1001]

/-- C8 as stated is false at a concrete input: after the delimiter of
`goalContentBare` no line is a `goal: value` declaration, yet `triger` requests
a level load (of a level named `goal`, the whole stripped colonless line)
instead of the configuration-error exit — the colonless line `goal` matches
because Python's `find` returns -1 and `line[0:-1]` drops only the trailing
newline. -/
theorem C8_goal_trigger_counterexample :
    (∀ line ∈ goalContentBare.drop (markerIdx goalContentBare "level1.txt".data),
      isColonDecl "goal".data line = false) ∧
    Goal.triger goalContentBare "level1.txt".data "goal".data =
      ⟨true, GoalAction.loadLevel "goal".data false⟩ :=
  ⟨by decide, rfl⟩

/-- C8 (amended): `Goal.triger` always requests the high-score prompt; when the
forward scan from the delimiter line accepts a line for the trigger key (a
`key: value` declaration — or, degenerately, a colonless line whose text minus
its final character strips to the key, the value then being the whole stripped
line), the request is to load the level named by the accepted value without
resetting the player; when no line at or after the delimiter is accepted, the
request is the configuration-error exit. -/
theorem C8_goal_trigger_amended (content : List (List Char)) (level key : List Char) :
    (Goal.triger content level key).highscore_prompt = true ∧
    (∀ v, triger_scan key (content.drop (markerIdx content level)) = some v →
      (Goal.triger content level key).action = GoalAction.loadLevel v false) ∧
    ((∀ line ∈ content.drop (markerIdx content level), find_in_line key line = none) →
      (Goal.triger content level key).action = GoalAction.configErrorExit) := by
  refine ⟨?_, ?_, ?_⟩
  · unfold Goal.triger
    split <;> rfl
  · intro v hv
    unfold Goal.triger
    split
    · rename_i v' hv'
      rw [hv] at hv'
      cases hv'
      rfl
    · rename_i hnone
      rw [hv] at hnone
      cases hnone
  · intro hall
    have hnone : triger_scan key (content.drop (markerIdx content level)) = none := by
      unfold triger_scan
      exact List.findSome?_eq_none_iff.mpr hall
    unfold Goal.triger
    split
    · rename_i v' hv'
      rw [hnone] at hv'
      cases hv'
    · rfl

/-- Witness for the amended C8 at a configuration whose level section holds a
proper `goal: level2.txt` declaration. -/
theorem C8_goal_trigger_amended_witness :
    (triger_scan "goal".data (goalContent.drop (markerIdx goalContent "level1.txt".data)) =
      some "level2.txt".data) ∧
    (Goal.triger goalContent "level1.txt".data "goal".data).action =
      GoalAction.loadLevel "level2.txt".data false :=
  ⟨rfl, (C8_goal_trigger_amended goalContent "level1.txt".data "goal".data).2.1
    "level2.txt".data rfl⟩

/-- C9 as stated is false at a concrete input: `configNoCharacter` supplies no
player-character name, yet `load_config` succeeds — the character key is not
among the required keys checked by `check_config`, and `MarioApp.__init__`
defaults the name to Mario. -/
theorem C9_missing_character_counterexample :
    load_config configNoCharacter = Except.ok configNoCharacterParsed ∧
    configNoCharacterParsed.character = none ∧
    app_character configNoCharacterParsed = "Mario".data :=
  ⟨rfl, rfl, rfl⟩

/-- C9 (amended): the required configuration keys are gravity, start, x, y,
mass, health and max_velocity — a configuration that loads successfully
carries them all, and one missing any of them is rejected with the
invalid-configuration error and exit; the player-character name is optional. -/
theorem C9_required_keys_amended (content : List (List Char)) (c : Config)
    (h : load_config content = Except.ok c) :
    c.gravity.isSome = true ∧ c.start.isSome = true ∧ c.x.isSome = true ∧
    c.y.isSome = true ∧ c.mass.isSome = true ∧ c.health.isSome = true ∧
    c.max_velocity.isSome = true := by
  unfold load_config at h
  cases hf : content.foldlM load_config_line emptyConfig with
  | error e =>
    rw [hf] at h
    simp only [bind, Except.bind] at h
    cases h
  | ok c' =>
    rw [hf] at h
    simp only [bind, Except.bind] at h
    unfold check_config at h
    split at h
    · rename_i hcond
      cases h
      simp only [Bool.and_eq_true] at hcond
      exact ⟨hcond.1.1.1.1.1.1, hcond.1.1.1.1.1.2, hcond.1.1.1.1.2, hcond.1.1.1.2,
        hcond.1.1.2, hcond.1.2, hcond.2⟩
    · cases h

/-- Witness for the amended C9 at the parsed `configNoCharacter`. -/
theorem C9_required_keys_amended_witness :
    (load_config configNoCharacter = Except.ok configNoCharacterParsed) ∧
    (configNoCharacterParsed.gravity.isSome = true ∧
      configNoCharacterParsed.start.isSome = true ∧
      configNoCharacterParsed.x.isSome = true ∧
      configNoCharacterParsed.y.isSome = true ∧
      configNoCharacterParsed.mass.isSome = true ∧
      configNoCharacterParsed.health.isSome = true ∧
      configNoCharacterParsed.max_velocity.isSome = true) :=
  ⟨rfl, C9_required_keys_amended configNoCharacter configNoCharacterParsed rfl⟩

end Mario
